import Mathlib

/-!
Verification of the transcription pipeline in `run_whisper_cpp_demo_gui.py`.

The Python program shells out to three external tools (ffmpeg, yt-dlp,
whisper-cli) and manipulates the filesystem.  We embed it shallowly:

* a filesystem path is a `PPath` (everything before the final extension,
  plus the extension with its leading dot, as in Python's `Path.suffix` /
  `Path.with_suffix`);
* the outcome of one external process invocation is a `ProcOutcome`
  oracle value (the executable was missing, or it ran with a given exit
  code, captured stdout/stderr, and a flag saying whether the expected
  output file exists afterwards);
* the filesystem is the list of existing path strings, threaded
  explicitly through the effectful functions;
* Python string idioms (`str.lower`, `str.strip`, `a or b` on strings)
  are modelled by `pyLower`, `pyStrip` and `pyOr`.
-/

/-- A path split as Python's `pathlib` sees it: `base` is everything before
the final extension, `suffix` the extension including its leading dot
(empty when there is none). -/
structure PPath where
  base : String
  suffix : String
deriving DecidableEq, Repr

/-- `str(path)`: the full path string. -/
def PPath.render (p : PPath) : String := p.base ++ p.suffix

/-- Python `Path.with_suffix`: replace the final extension. -/
def with_suffix (p : PPath) (s : String) : PPath := ⟨p.base, s⟩

/-- ASCII lower-casing of one character, as Python `str.lower` acts on the
ASCII range (the only characters appearing in the extensions involved). -/
def pyCharLower (c : Char) : Char :=
  if 'A' ≤ c ∧ c ≤ 'Z' then Char.ofNat (c.toNat + 32) else c

/-- Python `str.lower` (restricted to its ASCII behaviour). -/
def pyLower (s : String) : String := String.mk (s.data.map pyCharLower)

/-- The whitespace characters Python `str.strip` removes (ASCII range). -/
def pyIsSpace (c : Char) : Bool :=
  c = ' ' ∨ c = '\t' ∨ c = '\n' ∨ c = '\r' ∨ c = '\x0b' ∨ c = '\x0c'

/-- Python `str.strip()`: drop leading and trailing whitespace. -/
def pyStrip (s : String) : String :=
  String.mk (((s.data.dropWhile pyIsSpace).reverse.dropWhile pyIsSpace).reverse)

/-- Python `a or b` on strings: the empty string is falsy. -/
def pyOr (a b : String) : String := if a = "" then b else a

/-- Python truthiness of an `Optional[str]`: `None` and `""` are falsy. -/
def pyTruthy : Option String → Bool
  | none => false
  | some s => ¬ s = ""

/-- Outcome of one `subprocess.run` call on an external tool:
either the executable could not be located (`FileNotFoundError`), or the
process ran, exiting with `returncode`, producing captured `stdout` and
`stderr`, with `outExists` recording whether the expected output file
exists on disk after the process finished. -/
inductive ProcOutcome where
  | notFound : ProcOutcome
  | ran (returncode : Int) (stdout stderr : String) (outExists : Bool) : ProcOutcome
deriving DecidableEq, Repr

/-- The filesystem as the list of existing path strings. -/
def fsInsert (p : String) (fs : List String) : List String :=
  if p ∈ fs then fs else p :: fs

/-- `Path.unlink(missing_ok=True)`: the path no longer exists afterwards. -/
def fsErase (p : String) (fs : List String) : List String :=
  fs.filter (fun q => ¬ p = q)

/-- `SUPPORTED_TYPES` of the script, as dotted suffixes: the whitelist
checked by `prepare_audio_file`. -/
def SUPPORTED_SUFFIXES : List String := [".wav", ".mp3", ".mp4", ".m4a"]

/-- The errors `prepare_audio_file` can raise: `ValueError` for an
unsupported suffix, `RuntimeError` when ffmpeg is missing, and
`RuntimeError` carrying the rendered failure message when the transcode
fails. -/
inductive PrepError where
  | unsupportedFormat (suffix : String)
  | transcoderUnavailable
  | transcodeFailed (msg : String)
deriving DecidableEq, Repr

/-- `str(exc)` for each exception `prepare_audio_file` raises. -/
def PrepError.message : PrepError → String
  | .unsupportedFormat s => "지원하지 않는 파일 형식입니다: " ++ s
  | .transcoderUnavailable =>
      "ffmpeg 명령을 찾을 수 없습니다. 서버 환경에 설치되어 있는지 확인하세요."
  | .transcodeFailed m => m

/-- Result of `prepare_audio_file`: the returned path or the raised
exception, together with whether `subprocess.run` was called at all. -/
structure PrepOutcome where
  result : Except PrepError PPath
  invoked : Bool
deriving Repr

/-- `prepare_audio_file` (source lines 64–103): lower-case the suffix,
reject anything outside the whitelist, return `.wav` inputs unchanged,
otherwise run ffmpeg to the sibling `.wav` path; on non-zero exit or a
missing output file, raise with the stripped stderr, else the stripped
stdout, else a generic message. -/
def prepare_audio_file (input_path : PPath) (ffmpeg : ProcOutcome) : PrepOutcome :=
  let suffix := pyLower input_path.suffix
  if suffix ∉ SUPPORTED_SUFFIXES then
    ⟨.error (.unsupportedFormat suffix), false⟩
  else if suffix = ".wav" then
    ⟨.ok input_path, false⟩
  else
    let output_path := with_suffix input_path ".wav"
    match ffmpeg with
    | .notFound => ⟨.error .transcoderUnavailable, true⟩
    | .ran returncode stdout stderr outExists =>
      if returncode ≠ 0 ∨ outExists = false then
        ⟨.error (.transcodeFailed ("ffmpeg 변환 실패: " ++
            pyOr (pyStrip stderr) (pyOr (pyStrip stdout) "ffmpeg 변환에 실패했습니다."))), true⟩
      else
        ⟨.ok output_path, true⟩

/-- Filesystem effect of the same `prepare_audio_file` branches: the fast
paths touch nothing; after an ffmpeg run the sibling `.wav` exists exactly
when the oracle says so, and the failure branch calls
`output_path.unlink(missing_ok=True)` before raising. -/
def prepare_fs (input_path : PPath) (ffmpeg : ProcOutcome) (fs : List String) : List String :=
  let suffix := pyLower input_path.suffix
  if suffix ∉ SUPPORTED_SUFFIXES then fs
  else if suffix = ".wav" then fs
  else
    let output := (with_suffix input_path ".wav").render
    match ffmpeg with
    | .notFound => fs
    | .ran returncode _ _ outExists =>
      if returncode ≠ 0 ∨ outExists = false then
        fsErase output (if outExists then fsInsert output fs else fsErase output fs)
      else
        fsInsert output fs

/-- Oracle for one whisper-cli run: exit code, captured streams, and
whether the sibling `<audio>.txt` file exists afterwards and with which
contents.  (The engine binary is assumed present; a missing binary would
propagate as an uncaught `FileNotFoundError` into the controller's
catch-all.) -/
structure EngineOracle where
  returncode : Int
  stdout : String
  stderr : String
  txtExists : Bool
  txtContents : String
deriving DecidableEq, Repr

/-- `run_whisper_cli` (source lines 163–194): on non-zero exit return
empty text plus stderr-preferred diagnostics; on zero exit read the
sibling `<audio>.txt`, reporting a missing-result error when it is
absent, and otherwise return its stripped contents with no error. -/
def run_whisper_cli (audio_path : PPath) (cuda_device : String) (o : EngineOracle) :
    String × Option String :=
  let stdout := pyStrip o.stdout
  let stderr := pyStrip o.stderr
  if o.returncode ≠ 0 then
    ("", some (pyOr stderr (pyOr stdout "whisper-cli failed with an unknown error.")))
  else
    let txt_path := audio_path.render ++ ".txt"
    if o.txtExists = false then
      ("", some ("전사 결과 파일을 찾을 수 없습니다: " ++ txt_path))
    else
      (pyStrip o.txtContents, none)

/-- `env = os.environ.copy(); env["CUDA_VISIBLE_DEVICES"] = str(cuda_device)`
(source lines 173–174): the environment handed to the child process.  The
parent environment is only copied, never written, which the embedding
reflects by taking it as a pure value. -/
def child_env (parent : String → Option String) (cuda_device : String) :
    String → Option String :=
  fun k => if k = "CUDA_VISIBLE_DEVICES" then some cuda_device else parent k

/-- `yt-dlp` command line built by `download_youtube_audio`
(source lines 118–126). -/
def yt_dlp_cmd (output_path url : String) : List String :=
  ["yt-dlp", "-x", "--audio-format", "wav", "-o", output_path, url]

/-- `download_youtube_audio` (source lines 106–145), with the
uuid-generated output path taken as a parameter: raise when yt-dlp is
missing; on non-zero exit raise with stderr-preferred diagnostics; when
the output file is absent afterwards raise a fixed message; otherwise
return the output path.  The `Except` payload is `str(exc)`. -/
def download_youtube_audio (output_path url : String) (o : ProcOutcome) :
    Except String String :=
  let _cmd := yt_dlp_cmd output_path url
  match o with
  | .notFound =>
      .error "yt-dlp 명령을 찾을 수 없습니다. 서버 환경에 설치되어 있는지 확인하세요."
  | .ran returncode stdout stderr outExists =>
    if returncode ≠ 0 then
      .error ("yt-dlp 다운로드 실패: " ++
        pyOr (pyStrip stderr) (pyOr (pyStrip stdout) "알 수 없는 오류가 발생했습니다."))
    else if outExists = false then
      .error "yt-dlp 다운로드에 성공했지만 wav 파일을 찾지 못했습니다."
    else
      .ok output_path

/-- The per-run result the controller stores: `st.session_state`'s
`transcription` and `last_error`, both reset to `""` at the start of the
run. -/
structure SessionState where
  transcription : String
  last_error : String
deriving DecidableEq, Repr

/-- The transcription run of `main` (source lines 247–274) in upload mode,
after input validation: `temp_paths = set()` (never added to);
`save_uploaded_file` writes the upload; `prepare_audio_file` normalizes;
`run_whisper_cli` transcribes; exceptions land in `last_error`; the
`finally` block unlinks every member of `temp_paths`. -/
def run_upload_pipeline (uploaded_name : PPath) (cuda_device : String)
    (ffmpeg : ProcOutcome) (engine : EngineOracle) (fs0 : List String) :
    SessionState × List String :=
  let temp_paths : List String := []
  let source_path := uploaded_name
  let fs1 := fsInsert source_path.render fs0
  let prep := prepare_audio_file source_path ffmpeg
  let fs2 := prepare_fs source_path ffmpeg fs1
  let step :=
    match prep.result with
    | .error e => (SessionState.mk "" e.message, fs2)
    | .ok prepared_audio_path =>
      let fs3 :=
        if engine.txtExists then
          fsInsert (prepared_audio_path.render ++ ".txt") fs2
        else fs2
      let r := run_whisper_cli prepared_audio_path cuda_device engine
      if pyTruthy r.2 then
        (SessionState.mk "" (r.2.getD ""), fs3)
      else
        (SessionState.mk r.1 "", fs3)
  (step.1, temp_paths.foldl (fun fs p => fsErase p fs) step.2)

/-- Whether the first character list starts the second. -/
def strStartsAux : List Char → List Char → Bool
  | [], _ => true
  | _ :: _, [] => false
  | a :: as, b :: bs => a = b && strStartsAux as bs

/-- Whether `needle` occurs as a contiguous substring of the second list:
used to state that an error message does or does not carry a piece of
captured diagnostic text. -/
def strHasSub (needle : List Char) : List Char → Bool
  | [] => needle.isEmpty
  | c :: cs => strStartsAux needle (c :: cs) || strHasSub needle cs

/-- Helper: once the lower-cased suffix is whitelisted, `prepare_audio_file`
can no longer fail with `unsupportedFormat`. -/
theorem prepare_whitelisted_not_unsupported (p : PPath) (o : ProcOutcome) (s : String)
    (hmem : pyLower p.suffix ∈ SUPPORTED_SUFFIXES) :
    (prepare_audio_file p o).result ≠ .error (.unsupportedFormat s) := by
  unfold prepare_audio_file
  rw [if_neg (not_not_intro hmem)]
  split
  · simp
  · split
    · simp
    · split <;> simp

/-- Helper: whenever the lower-cased suffix is `.wav`, `prepare_audio_file`
takes the fast path: identical path back, no process, no filesystem
change. -/
theorem prepare_lower_wav (p : PPath) (ffmpeg : ProcOutcome) (fs : List String)
    (hl : pyLower p.suffix = ".wav") :
    prepare_audio_file p ffmpeg = ⟨.ok p, false⟩ ∧ prepare_fs p ffmpeg fs = fs := by
  constructor
  · unfold prepare_audio_file
    rw [hl]
    simp [SUPPORTED_SUFFIXES]
  · unfold prepare_fs
    rw [hl]
    simp [SUPPORTED_SUFFIXES]

/-- Claim C3: for every input whose extension is the canonical `.wav`,
`prepare_audio_file` returns the identical path unchanged, invokes no
external process, and leaves the filesystem untouched (creates no new
file). -/
theorem wav_fast_path (p : PPath) (ffmpeg : ProcOutcome) (fs : List String)
    (h : p.suffix = ".wav") :
    prepare_audio_file p ffmpeg = ⟨.ok p, false⟩ ∧ prepare_fs p ffmpeg fs = fs :=
  prepare_lower_wav p ffmpeg fs (by rw [h]; decide)

/-- Claim C3, witness at `sample.wav`. -/
theorem wav_fast_path_witness :
    (⟨"sample", ".wav"⟩ : PPath).suffix = ".wav" ∧
    (prepare_audio_file ⟨"sample", ".wav"⟩ .notFound = ⟨.ok ⟨"sample", ".wav"⟩, false⟩ ∧
      prepare_fs ⟨"sample", ".wav"⟩ .notFound ["a"] = ["a"]) :=
  ⟨rfl, wav_fast_path ⟨"sample", ".wav"⟩ .notFound ["a"] rfl⟩

/-- Claim C5: a lower-cased extension outside the whitelist makes
`prepare_audio_file` fail with `unsupportedFormat` without spawning any
external process, and a whitelisted one never produces that error. -/
theorem unsupported_format_rejection :
    (∀ (p : PPath) (o : ProcOutcome), pyLower p.suffix ∉ SUPPORTED_SUFFIXES →
        prepare_audio_file p o = ⟨.error (.unsupportedFormat (pyLower p.suffix)), false⟩) ∧
    (∀ (p : PPath) (o : ProcOutcome) (s : String), pyLower p.suffix ∈ SUPPORTED_SUFFIXES →
        (prepare_audio_file p o).result ≠ .error (.unsupportedFormat s)) := by
  constructor
  · intro p o hnot
    unfold prepare_audio_file
    rw [if_pos hnot]
  · intro p o s hmem
    exact prepare_whitelisted_not_unsupported p o s hmem

/-- Claim C5, witness at `f.xyz` (rejected) and `f.mp3` (accepted). -/
theorem unsupported_format_rejection_witness :
    (pyLower (PPath.suffix ⟨"f", ".xyz"⟩) ∉ SUPPORTED_SUFFIXES ∧
      prepare_audio_file ⟨"f", ".xyz"⟩ .notFound =
        ⟨.error (.unsupportedFormat (pyLower (PPath.suffix ⟨"f", ".xyz"⟩))), false⟩) ∧
    (pyLower (PPath.suffix ⟨"f", ".mp3"⟩) ∈ SUPPORTED_SUFFIXES ∧
      (prepare_audio_file ⟨"f", ".mp3"⟩ .notFound).result ≠
        .error (.unsupportedFormat ".xyz")) :=
  ⟨⟨by decide, unsupported_format_rejection.1 ⟨"f", ".xyz"⟩ .notFound (by decide)⟩,
   ⟨by decide, unsupported_format_rejection.2 ⟨"f", ".mp3"⟩ .notFound ".xyz" (by decide)⟩⟩

/-- Claim C6: when the engine exits zero but the sibling `.txt` file is
absent, `run_whisper_cli` returns empty text with the missing-result-file
error (and, being a total function of its oracle, raises nothing). -/
theorem result_file_missing (audio_path : PPath) (cuda_device : String) (o : EngineOracle)
    (h0 : o.returncode = 0) (hmiss : o.txtExists = false) :
    run_whisper_cli audio_path cuda_device o =
      ("", some ("전사 결과 파일을 찾을 수 없습니다: " ++ (audio_path.render ++ ".txt"))) := by
  unfold run_whisper_cli
  simp [h0, hmiss]

/-- Claim C6, witness. -/
theorem result_file_missing_witness :
    (EngineOracle.returncode ⟨0, "out", "err", false, ""⟩ = 0 ∧
      EngineOracle.txtExists ⟨0, "out", "err", false, ""⟩ = false) ∧
    run_whisper_cli ⟨"clip", ".wav"⟩ "0" ⟨0, "out", "err", false, ""⟩ =
      ("", some ("전사 결과 파일을 찾을 수 없습니다: " ++
        (PPath.render ⟨"clip", ".wav"⟩ ++ ".txt"))) :=
  ⟨⟨rfl, rfl⟩, result_file_missing ⟨"clip", ".wav"⟩ "0" ⟨0, "out", "err", false, ""⟩ rfl rfl⟩

/-- Claim C7: on non-zero engine exit, `run_whisper_cli` returns empty
text and, as the error, the stripped stderr if non-empty, else the
stripped stdout if non-empty, else a fixed generic message. -/
theorem engine_nonzero_exit (audio_path : PPath) (cuda_device : String) (o : EngineOracle)
    (h : o.returncode ≠ 0) :
    run_whisper_cli audio_path cuda_device o =
      ("", some (pyOr (pyStrip o.stderr)
        (pyOr (pyStrip o.stdout) "whisper-cli failed with an unknown error."))) := by
  unfold run_whisper_cli
  simp [h]

/-- Claim C7, witness. -/
theorem engine_nonzero_exit_witness :
    (EngineOracle.returncode ⟨1, " out ", "", true, "t"⟩ ≠ 0) ∧
    run_whisper_cli ⟨"clip", ".wav"⟩ "0" ⟨1, " out ", "", true, "t"⟩ =
      ("", some (pyOr (pyStrip "") (pyOr (pyStrip " out ")
        "whisper-cli failed with an unknown error."))) :=
  ⟨by decide, engine_nonzero_exit ⟨"clip", ".wav"⟩ "0" ⟨1, " out ", "", true, "t"⟩ (by decide)⟩

/-- Claim C9: the child environment equals the parent environment with
only `CUDA_VISIBLE_DEVICES` rebound to the device selector; every other
key reads through to the parent, which (being copied, then passed by
value) is itself unchanged. -/
theorem cuda_env_isolation (parent : String → Option String) (d : String) :
    child_env parent d "CUDA_VISIBLE_DEVICES" = some d ∧
    ∀ k, k ≠ "CUDA_VISIBLE_DEVICES" → child_env parent d k = parent k := by
  constructor
  · simp [child_env]
  · intro k hk
    simp [child_env, hk]

/-- Claim C9, witness on the empty parent environment and key `PATH`. -/
theorem cuda_env_isolation_witness :
    child_env (fun _ => none) "1" "CUDA_VISIBLE_DEVICES" = some "1" ∧
    (("PATH" : String) ≠ "CUDA_VISIBLE_DEVICES" ∧
      child_env (fun _ => none) "1" "PATH" = none) :=
  ⟨(cuda_env_isolation (fun _ => none) "1").1,
   ⟨by decide, (cuda_env_isolation (fun _ => none) "1").2 "PATH" (by decide)⟩⟩

/-- Claim C4: when the ffmpeg invocation inside `prepare_audio_file` fails
(non-zero exit, or the expected output file absent), the raised error
carries the captured stderr-preferred diagnostic text, and the sibling
output path does not exist afterwards (partial output deleted before
raising). -/
theorem transcode_failure_cleanup (p : PPath) (returncode : Int) (stdout stderr : String)
    (outExists : Bool) (fs : List String)
    (hmem : pyLower p.suffix ∈ SUPPORTED_SUFFIXES) (hwav : pyLower p.suffix ≠ ".wav")
    (hfail : returncode ≠ 0 ∨ outExists = false) :
    (prepare_audio_file p (.ran returncode stdout stderr outExists)).result =
      .error (.transcodeFailed ("ffmpeg 변환 실패: " ++
        pyOr (pyStrip stderr) (pyOr (pyStrip stdout) "ffmpeg 변환에 실패했습니다."))) ∧
    (with_suffix p ".wav").render ∉
      prepare_fs p (.ran returncode stdout stderr outExists) fs := by
  constructor
  · unfold prepare_audio_file
    rw [if_neg (not_not_intro hmem), if_neg hwav]
    simp [hfail]
  · unfold prepare_fs
    rw [if_neg (not_not_intro hmem), if_neg hwav]
    simp only [if_pos hfail]
    simp [fsErase, List.mem_filter]

/-- Claim C4, witness: `clip.mp4` with ffmpeg exiting 1 while the partial
`clip.wav` exists. -/
theorem transcode_failure_cleanup_witness :
    (pyLower (PPath.suffix ⟨"clip", ".mp4"⟩) ∈ SUPPORTED_SUFFIXES ∧
      pyLower (PPath.suffix ⟨"clip", ".mp4"⟩) ≠ ".wav" ∧
      ((1 : Int) ≠ 0 ∨ (true = false))) ∧
    ((prepare_audio_file ⟨"clip", ".mp4"⟩ (.ran 1 "" "boom" true)).result =
        .error (.transcodeFailed ("ffmpeg 변환 실패: " ++
          pyOr (pyStrip "boom") (pyOr (pyStrip "") "ffmpeg 변환에 실패했습니다."))) ∧
      (with_suffix ⟨"clip", ".mp4"⟩ ".wav").render ∉
        prepare_fs ⟨"clip", ".mp4"⟩ (.ran 1 "" "boom" true) ["clip.wav"]) :=
  ⟨⟨by decide, by decide, Or.inl (by decide)⟩,
   transcode_failure_cleanup ⟨"clip", ".mp4"⟩ 1 "" "boom" true ["clip.wav"]
     (by decide) (by decide) (Or.inl (by decide))⟩

/-- Claim C10: extension matching is case-insensitive — an upper-case
`.WAV` takes the fast path and comes back unchanged with no process and
no filesystem change, and any extension whose lower-casing is whitelisted
is never rejected as unsupported. -/
theorem case_insensitive_extension :
    (∀ (base : String) (o : ProcOutcome) (fs : List String),
        prepare_audio_file ⟨base, ".WAV"⟩ o = ⟨.ok ⟨base, ".WAV"⟩, false⟩ ∧
        prepare_fs ⟨base, ".WAV"⟩ o fs = fs) ∧
    (∀ (p : PPath) (o : ProcOutcome) (s : String),
        pyLower p.suffix ∈ SUPPORTED_SUFFIXES →
        (prepare_audio_file p o).result ≠ .error (.unsupportedFormat s)) := by
  constructor
  · intro base o fs
    exact prepare_lower_wav ⟨base, ".WAV"⟩ o fs (by show pyLower ".WAV" = ".wav"; decide)
  · intro p o s hmem
    exact prepare_whitelisted_not_unsupported p o s hmem

/-- Claim C10, witness: `clip.WAV` fast path and `song.Mp3` accepted. -/
theorem case_insensitive_extension_witness :
    (prepare_audio_file ⟨"clip", ".WAV"⟩ .notFound = ⟨.ok ⟨"clip", ".WAV"⟩, false⟩ ∧
      prepare_fs ⟨"clip", ".WAV"⟩ .notFound ["x"] = ["x"]) ∧
    (pyLower (PPath.suffix ⟨"song", ".Mp3"⟩) ∈ SUPPORTED_SUFFIXES ∧
      (prepare_audio_file ⟨"song", ".Mp3"⟩ .notFound).result ≠
        .error (.unsupportedFormat ".mp3")) :=
  ⟨case_insensitive_extension.1 "clip" .notFound ["x"],
   ⟨by decide, case_insensitive_extension.2 ⟨"song", ".Mp3"⟩ .notFound ".mp3" (by decide)⟩⟩

/-- Claim C8 counterexample: yt-dlp exits zero with diagnostic text on
stderr but produces no output file; `download_youtube_audio` raises the
fixed missing-file message, which does not carry the diagnostic text —
so the failure for an absent output file does not carry the downloader's
diagnostics as the claim states. -/
theorem download_missing_file_error_lacks_diagnostics :
    download_youtube_audio "out.wav" "https://example.com/x" (.ran 0 "" "DIAGNOSTIC" false) =
      .error "yt-dlp 다운로드에 성공했지만 wav 파일을 찾지 못했습니다." ∧
    strHasSub "DIAGNOSTIC".data
      "yt-dlp 다운로드에 성공했지만 wav 파일을 찾지 못했습니다.".data = false :=
  ⟨rfl, by decide⟩

/-- Claim C8 as amended: the downloader is invoked as
`yt-dlp -x --audio-format wav -o <outputPath> <url>`; a missing executable
raises the unavailable message; a non-zero exit raises a failure carrying
the stderr-preferred diagnostics; a zero exit without an output file
raises a fixed missing-file message (without diagnostics); otherwise the
output path is returned. -/
theorem download_contract :
    (∀ (output_path url : String), yt_dlp_cmd output_path url =
        ["yt-dlp", "-x", "--audio-format", "wav", "-o", output_path, url]) ∧
    (∀ (output_path url : String), download_youtube_audio output_path url .notFound =
        .error "yt-dlp 명령을 찾을 수 없습니다. 서버 환경에 설치되어 있는지 확인하세요.") ∧
    (∀ (output_path url : String) (rc : Int) (stdout stderr : String) (outExists : Bool),
        rc ≠ 0 → download_youtube_audio output_path url (.ran rc stdout stderr outExists) =
          .error ("yt-dlp 다운로드 실패: " ++
            pyOr (pyStrip stderr) (pyOr (pyStrip stdout) "알 수 없는 오류가 발생했습니다."))) ∧
    (∀ (output_path url stdout stderr : String),
        download_youtube_audio output_path url (.ran 0 stdout stderr false) =
          .error "yt-dlp 다운로드에 성공했지만 wav 파일을 찾지 못했습니다.") ∧
    (∀ (output_path url stdout stderr : String),
        download_youtube_audio output_path url (.ran 0 stdout stderr true) =
          .ok output_path) := by
  refine ⟨fun o u => rfl, fun o u => rfl, ?_, fun o u a b => rfl, fun o u a b => rfl⟩
  intro o u rc a b e h
  unfold download_youtube_audio
  simp [h]

/-- Claim C8 amended, witness at a non-zero exit. -/
theorem download_contract_witness :
    ((1 : Int) ≠ 0) ∧
    download_youtube_audio "out.wav" "u" (.ran 1 "so" "se" true) =
      .error ("yt-dlp 다운로드 실패: " ++
        pyOr (pyStrip "se") (pyOr (pyStrip "so") "알 수 없는 오류가 발생했습니다.")) :=
  ⟨by decide, download_contract.2.2.1 "out.wav" "u" 1 "so" "se" true (by decide)⟩

/-- Claim C1: evaluation of the controller at the spec's scenario B
(upload `clip.mp4`, ffmpeg and the engine both succeed).  The run
succeeds, `clip.mp4` still exists — but the transcoded `clip.wav` also
still exists: `temp_paths` is created empty and never added to, so the
`finally` cleanup loop deletes nothing. -/
theorem cleanup_leaves_transcoded_wav :
    (run_upload_pipeline ⟨"clip", ".mp4"⟩ "0" (.ran 0 "" "" true)
        ⟨0, "", "", true, "hello"⟩ []).1 = ⟨"hello", ""⟩ ∧
    "clip.mp4" ∈ (run_upload_pipeline ⟨"clip", ".mp4"⟩ "0" (.ran 0 "" "" true)
        ⟨0, "", "", true, "hello"⟩ []).2 ∧
    "clip.wav" ∈ (run_upload_pipeline ⟨"clip", ".mp4"⟩ "0" (.ran 0 "" "" true)
        ⟨0, "", "", true, "hello"⟩ []).2 := by
  decide

/-- Claim C2 counterexample: the engine exits zero and the result file
exists but holds only whitespace; the run stores empty text and an empty
error, so neither side of the result is populated — refuting "exactly one
of the two sides is populated, never neither". -/
theorem whitespace_success_neither_populated :
    (run_upload_pipeline ⟨"sample", ".wav"⟩ "0" .notFound
        ⟨0, "", "", true, " \n "⟩ []).1 = ⟨"", ""⟩ := by
  decide

/-- Claim C2 as amended: at most one side of the per-run result is
populated — a populated transcription forces an empty error and vice
versa — while a successful run with a whitespace-only result file
legitimately populates neither. -/
theorem pipeline_at_most_one_populated (uploaded_name : PPath) (cuda_device : String)
    (ffmpeg : ProcOutcome) (engine : EngineOracle) (fs0 : List String) :
    (run_upload_pipeline uploaded_name cuda_device ffmpeg engine fs0).1.transcription = "" ∨
    (run_upload_pipeline uploaded_name cuda_device ffmpeg engine fs0).1.last_error = "" := by
  unfold run_upload_pipeline
  cases h : (prepare_audio_file uploaded_name ffmpeg).result with
  | error e => simp [h]
  | ok prepared =>
    by_cases ht : pyTruthy (run_whisper_cli prepared cuda_device engine).2
    · simp [h, ht]
    · simp [h, ht]
